import Mathlib

/-
Verification of the Quality-aware Recipe Linear Program builder
(src/scripts/linear_solver.py of FactorioQualityOptimizer).

The Python module is shallowly embedded below: numeric data carried by the
JSON catalog and the configuration is modelled by rationals (JSON numerals
are exact decimals), real-number computations of the solver-setup code are
modelled by real numbers, and every `raise` is modelled by `Except.error`.
-/

set_option maxHeartbeats 1000000

namespace FQO

/-! ## Constants of linear_solver.py (lines 12-47) -/

/-- `JUMP_QUALITY_PROBABILITY = 0.1` (line 14). -/
noncomputable def JUMP_QUALITY_PROBABILITY : ℝ := 0.1

/-- `QUALITY_PROBABILITIES` (lines 18-22), indexed `[tier-1][quality_level]`. -/
def QUALITY_PROBABILITIES : List (List ℚ) :=
  [[0.01, 0.013, 0.016, 0.019, 0.025],
   [0.02, 0.026, 0.032, 0.038, 0.05],
   [0.025, 0.032, 0.04, 0.047, 0.062]]

/-- `SPEED_PENALTIES_PER_QUALITY_MODULE` (line 24). -/
def SPEED_PENALTIES_PER_QUALITY_MODULE : List ℚ := [0.05, 0.05, 0.05]

/-- `PROD_BONUSES` (lines 26-30). -/
def PROD_BONUSES : List (List ℚ) :=
  [[0.04, 0.05, 0.06, 0.07, 0.1],
   [0.06, 0.07, 0.09, 0.11, 0.15],
   [0.1, 0.13, 0.16, 0.19, 0.25]]

/-- `SPEED_PENALTIES_PER_PROD_MODULE` (line 32). -/
def SPEED_PENALTIES_PER_PROD_MODULE : List ℚ := [0.05, 0.1, 0.15]

/-- `SPEED_BONUSES` (lines 34-38). -/
def SPEED_BONUSES : List (List ℚ) :=
  [[0.2, 0.26, 0.32, 0.38, 0.5],
   [0.3, 0.39, 0.48, 0.57, 0.75],
   [0.5, 0.65, 0.8, 0.95, 1.25]]

/-- `QUALITY_PENALTIES_PER_SPEED_MODULE` (line 40). -/
def QUALITY_PENALTIES_PER_SPEED_MODULE : List ℚ := [0.01, 0.015, 0.025]

/-- `POSSIBLE_NUM_BEACONED_SPEED_MODULES = list(range(17))` (line 44). -/
def POSSIBLE_NUM_BEACONED_SPEED_MODULES : List ℕ := List.range 17

/-- `BEACON_EFFICIENCY = 1.5` (line 47). -/
noncomputable def BEACON_EFFICIENCY : ℝ := 1.5

/-! ## The quality-upgrade probability kernel (lines 67-97) -/

/-- Embeds `calculate_quality_probability_factor` (linear_solver.py lines
67-97).  A Python `raise ValueError`/`raise RuntimeError` is modelled by
`Except.error` carrying the message. -/
noncomputable def calculate_quality_probability_factor
    (starting_quality ending_quality max_quality_unlocked : ℕ)
    (quality_percent : ℝ) : Except String ℝ :=
  if starting_quality > max_quality_unlocked then
    .error "Starting quality cannot be above max quality unlocked"
  else if ending_quality > max_quality_unlocked then
    .error "Ending quality cannot be above max quality unlocked"
  else if ending_quality < starting_quality then
    .error "Ending quality cannot be below starting quality"
  else if ending_quality = starting_quality ∧ starting_quality = max_quality_unlocked then
    .ok 1
  else if ending_quality = starting_quality then
    .ok (1 - quality_percent)
  else if ending_quality > starting_quality ∧ ending_quality < max_quality_unlocked then
    .ok (quality_percent * (1 - JUMP_QUALITY_PROBABILITY) *
      JUMP_QUALITY_PROBABILITY ^ (ending_quality - starting_quality - 1))
  else if ending_quality > starting_quality ∧ ending_quality = max_quality_unlocked then
    .ok (quality_percent *
      JUMP_QUALITY_PROBABILITY ^ (ending_quality - starting_quality - 1))
  else
    .error "Reached impossible condition in calculate_quality_probability_factor"

/-- The real number produced by the kernel on its non-raising inputs (and 0
on the raising ones); `setup_recipe_var` multiplies this value into the
result coefficients. -/
noncomputable def qualityFactor (s e M : ℕ) (q : ℝ) : ℝ :=
  ((calculate_quality_probability_factor s e M q).toOption).getD 0

lemma qf_same_at_max (s M : ℕ) (q : ℝ) (h : s = M) :
    calculate_quality_probability_factor s s M q = .ok 1 := by
  subst h
  simp [calculate_quality_probability_factor]

lemma qf_same_below_max (s M : ℕ) (q : ℝ) (h : s < M) :
    calculate_quality_probability_factor s s M q = .ok (1 - q) := by
  unfold calculate_quality_probability_factor
  rw [if_neg (by omega), if_neg (by omega), if_neg (by omega), if_neg (by omega), if_pos rfl]

lemma qf_jump_below_max (s e M : ℕ) (q : ℝ) (h1 : s < e) (h2 : e < M) :
    calculate_quality_probability_factor s e M q =
      .ok (q * (1 - JUMP_QUALITY_PROBABILITY) *
        JUMP_QUALITY_PROBABILITY ^ (e - s - 1)) := by
  unfold calculate_quality_probability_factor
  rw [if_neg (by omega), if_neg (by omega), if_neg (by omega), if_neg (by omega),
    if_neg (by omega), if_pos ⟨h1, h2⟩]

lemma qf_jump_at_max (s M : ℕ) (q : ℝ) (h : s < M) :
    calculate_quality_probability_factor s M M q =
      .ok (q * JUMP_QUALITY_PROBABILITY ^ (M - s - 1)) := by
  unfold calculate_quality_probability_factor
  rw [if_neg (by omega), if_neg (by omega), if_neg (by omega), if_neg (by omega),
    if_neg (by omega), if_neg (by omega), if_pos ⟨h, rfl⟩]

lemma qualityFactor_same_at_max (s M : ℕ) (q : ℝ) (h : s = M) :
    qualityFactor s s M q = 1 := by
  simp [qualityFactor, qf_same_at_max s M q h, Except.toOption]

lemma qualityFactor_same_below_max (s M : ℕ) (q : ℝ) (h : s < M) :
    qualityFactor s s M q = 1 - q := by
  simp [qualityFactor, qf_same_below_max s M q h, Except.toOption]

lemma qualityFactor_jump_below_max (s e M : ℕ) (q : ℝ) (h1 : s < e) (h2 : e < M) :
    qualityFactor s e M q =
      q * (1 - JUMP_QUALITY_PROBABILITY) * JUMP_QUALITY_PROBABILITY ^ (e - s - 1) := by
  simp [qualityFactor, qf_jump_below_max s e M q h1 h2, Except.toOption]

lemma qualityFactor_jump_at_max (s M : ℕ) (q : ℝ) (h : s < M) :
    qualityFactor s M M q = q * JUMP_QUALITY_PROBABILITY ^ (M - s - 1) := by
  simp [qualityFactor, qf_jump_at_max s M q h, Except.toOption]

/-- C6: `calculate_quality_probability_factor` raises if and only if its
precondition is violated, i.e. iff `s > M`, `e > M` or `e < s`; on every
input with `s ≤ e ≤ M` it returns a value without raising (in particular
the final `RuntimeError` branch is unreachable). -/
theorem qf_error_iff_precondition (s e M : ℕ) (q : ℝ) :
    ((∃ msg, calculate_quality_probability_factor s e M q = .error msg) ↔
      (M < s ∨ M < e ∨ e < s))
    ∧ (s ≤ e → e ≤ M → ∃ v, calculate_quality_probability_factor s e M q = .ok v) := by
  constructor
  · unfold calculate_quality_probability_factor
    split_ifs with h1 h2 h3 h4 h5 h6 h7 <;> simp_all <;> omega
  · intro hse heM
    rcases Nat.lt_or_ge s e with hlt | hge
    · rcases Nat.lt_or_ge e M with heltM | hgeM
      · exact ⟨_, qf_jump_below_max s e M q hlt heltM⟩
      · have : e = M := le_antisymm heM hgeM
        subst this
        exact ⟨_, qf_jump_at_max s e q hlt⟩
    · have : e = s := le_antisymm hge hse
      subst this
      rcases Nat.lt_or_ge e M with heltM | hgeM
      · exact ⟨_, qf_same_below_max e M q heltM⟩
      · exact ⟨_, qf_same_at_max e M q (le_antisymm heM hgeM)⟩

/-- Witness for C6 at a concrete in-bounds input. -/
theorem qf_error_iff_precondition_witness :
    ((∃ msg, calculate_quality_probability_factor 1 2 3 0 = .error msg) ↔
      (3 < 1 ∨ 3 < 2 ∨ 2 < 1))
    ∧ (∃ v, calculate_quality_probability_factor 1 2 3 0 = .ok v) :=
  ⟨(qf_error_iff_precondition 1 2 3 0).1,
   (qf_error_iff_precondition 1 2 3 0).2 (by norm_num) (by norm_num)⟩

/-- C5: case values of the kernel.  For `0 ≤ s ≤ e ≤ M` and `0 ≤ q ≤ 1` the
kernel returns `1` when `e = s = M`, `1 - q` when `e = s < M`,
`q * (1 - 0.1) * 0.1 ^ (e - s - 1)` when `s < e < M`, and
`q * 0.1 ^ (e - s - 1)` when `s < e = M`; in particular
`calculate_quality_probability_factor 0 2 4 0.1 = 0.009` exactly. -/
theorem qf_case_values (s e M : ℕ) (q : ℝ)
    (hse : s ≤ e) (heM : e ≤ M) (hq0 : 0 ≤ q) (hq1 : q ≤ 1) :
    (e = s → s = M → calculate_quality_probability_factor s e M q = .ok 1)
    ∧ (e = s → s < M → calculate_quality_probability_factor s e M q = .ok (1 - q))
    ∧ (s < e → e < M → calculate_quality_probability_factor s e M q =
        .ok (q * (1 - 0.1) * (0.1 : ℝ) ^ (e - s - 1)))
    ∧ (s < e → e = M → calculate_quality_probability_factor s e M q =
        .ok (q * (0.1 : ℝ) ^ (e - s - 1)))
    ∧ calculate_quality_probability_factor 0 2 4 0.1 = .ok 0.009 := by
  refine ⟨?_, ?_, ?_, ?_, ?_⟩
  · intro h1 h2; subst h1; exact qf_same_at_max e M q h2
  · intro h1 h2; subst h1; exact qf_same_below_max e M q h2
  · intro h1 h2
    rw [qf_jump_below_max s e M q h1 h2]
    norm_num [JUMP_QUALITY_PROBABILITY]
  · intro h1 h2; subst h2
    rw [qf_jump_at_max s e q h1]
    norm_num [JUMP_QUALITY_PROBABILITY]
  · rw [qf_jump_below_max 0 2 4 0.1 (by norm_num) (by norm_num)]
    norm_num [JUMP_QUALITY_PROBABILITY]

/-- Witness for C5 at the concrete input of scenario S6. -/
theorem qf_case_values_witness :
    calculate_quality_probability_factor 0 2 4 0.1 = .ok 0.009 :=
  (qf_case_values 0 2 4 0.1 (by norm_num) (by norm_num) (by norm_num) (by norm_num)).2.2.2.2

lemma qf_closure_aux (d s : ℕ) (q : ℝ) :
    ∑ e ∈ Finset.Icc s (s + d), qualityFactor s e (s + d) q = 1 := by
  induction d with
  | zero => simp [Finset.Icc_self, qualityFactor_same_at_max]
  | succ d ih =>
    have htop : ∑ e ∈ Finset.Icc s (s + (d + 1)), qualityFactor s e (s + (d + 1)) q
        = (∑ e ∈ Finset.Icc s (s + d), qualityFactor s e (s + (d + 1)) q)
          + qualityFactor s (s + (d + 1)) (s + (d + 1)) q := by
      have harr : s + (d + 1) = (s + d) + 1 := by ring
      rw [harr, Finset.sum_Icc_succ_top (by omega)]
    cases d with
    | zero =>
      rw [htop]
      simp only [Nat.add_zero]
      rw [Finset.Icc_self, Finset.sum_singleton,
        qualityFactor_same_below_max s (s + 1) q (by omega),
        qualityFactor_jump_at_max s (s + 1) q (by omega)]
      have hexp : s + 1 - s - 1 = 0 := by omega
      rw [hexp, pow_zero]
      ring
    | succ d' =>
      have hsplit2 : ∑ e ∈ Finset.Icc s (s + (d' + 1)), qualityFactor s e (s + (d' + 1 + 1)) q
          = (∑ e ∈ Finset.Icc s (s + d'), qualityFactor s e (s + (d' + 1 + 1)) q)
            + qualityFactor s (s + (d' + 1)) (s + (d' + 1 + 1)) q := by
        have harr : s + (d' + 1) = (s + d') + 1 := by ring
        rw [harr, Finset.sum_Icc_succ_top (by omega)]
      have hsame : ∑ e ∈ Finset.Icc s (s + d'), qualityFactor s e (s + (d' + 1 + 1)) q
          = ∑ e ∈ Finset.Icc s (s + d'), qualityFactor s e (s + (d' + 1)) q := by
        refine Finset.sum_congr rfl ?_
        intro e he
        have heb : s ≤ e ∧ e ≤ s + d' := by simpa [Finset.mem_Icc] using he
        rcases Nat.eq_or_lt_of_le heb.1 with heq | hlt
        · rw [← heq, qualityFactor_same_below_max s (s + (d' + 1 + 1)) q (by omega),
            qualityFactor_same_below_max s (s + (d' + 1)) q (by omega)]
        · rw [qualityFactor_jump_below_max s e (s + (d' + 1 + 1)) q hlt (by omega),
            qualityFactor_jump_below_max s e (s + (d' + 1)) q hlt (by omega)]
      have ihsplit : (∑ e ∈ Finset.Icc s (s + d'), qualityFactor s e (s + (d' + 1)) q)
          + qualityFactor s (s + (d' + 1)) (s + (d' + 1)) q = 1 := by
        have harr : s + (d' + 1) = (s + d') + 1 := by ring
        rw [harr] at ih ⊢
        rw [Finset.sum_Icc_succ_top (by omega)] at ih
        exact ih
      rw [htop, hsplit2, hsame]
      rw [qualityFactor_jump_at_max s (s + (d' + 1)) q (by omega)] at ihsplit
      rw [qualityFactor_jump_below_max s (s + (d' + 1)) (s + (d' + 1 + 1)) q
        (by omega) (by omega)]
      rw [qualityFactor_jump_at_max s (s + (d' + 1 + 1)) q (by omega)]
      have he1 : s + (d' + 1) - s - 1 = d' := by omega
      have he2 : s + (d' + 1 + 1) - s - 1 = d' + 1 := by omega
      rw [he1] at ihsplit
      rw [he1, he2]
      have hstep : ∑ e ∈ Finset.Icc s (s + d'), qualityFactor s e (s + (d' + 1)) q
          = 1 - q * JUMP_QUALITY_PROBABILITY ^ d' := by linarith
      rw [hstep, pow_succ]
      ring

/-- C1: probability closure of the quality kernel.  For every `M`, every
starting tier `s ≤ M` and every per-roll upgrade probability `q`, the sum
over ending tiers `e ∈ [s..M]` of the kernel's value equals `1` exactly. -/
theorem qf_probability_closure (s M : ℕ) (q : ℝ) (h : s ≤ M) :
    ∑ e ∈ Finset.Icc s M, qualityFactor s e M q = 1 := by
  have haux := qf_closure_aux (M - s) s q
  rwa [Nat.add_sub_cancel' h] at haux

/-- Witness for C1 at `s = 0`, `M = 2`, `q = 1/2`. -/
theorem qf_probability_closure_witness :
    ∑ e ∈ Finset.Icc 0 2, qualityFactor 0 e 2 (1 / 2) = 1 :=
  qf_probability_closure 0 2 (1 / 2) (by norm_num)

/-! ## Catalog data model (spec section 3; linear_solver.py lines 169-199) -/

/-- A recipe ingredient: `{name, amount}`. -/
structure Ingredient where
  name : String
  amount : ℚ
deriving DecidableEq

/-- A recipe result carries `amount` or `(amount_min, amount_max)`
(linear_solver.py lines 55-58). -/
inductive AmountSpec
  | fixed (amount : ℚ)
  | minMax (amount_min amount_max : ℚ)
deriving DecidableEq

/-- A recipe result record; `probability`, `ignored_by_productivity` and
`extra_count_fraction` are optional JSON keys (lines 59-61). -/
structure ResultData where
  name : String
  amountSpec : AmountSpec
  probability : Option ℚ
  ignored_by_productivity : Option ℚ
  extra_count_fraction : Option ℚ
deriving DecidableEq

/-- The `base_amount` of a result (line 57-58). -/
def baseAmount (result_data : ResultData) : ℚ :=
  match result_data.amountSpec with
  | .fixed a => a
  | .minMax lo hi => 0.5 * (lo + hi)

/-- Embeds `calculate_expected_amount` (linear_solver.py lines 55-65). -/
def calculate_expected_amount (result_data : ResultData) (prod_bonus : ℚ) : ℚ :=
  let base_amount := baseAmount result_data
  let probability_factor := result_data.probability.getD 1
  let ignored_by_productivity := result_data.ignored_by_productivity.getD 0
  let extra_count_fraction := result_data.extra_count_fraction.getD 0
  let base_amount_after_prod :=
    ignored_by_productivity + (base_amount - ignored_by_productivity) * (1 + prod_bonus)
  base_amount_after_prod * probability_factor * (1 + extra_count_fraction)

/-- Embeds `calculate_num_effective_speed_modules` (lines 49-53); the Python
`math.ceil(n/2)` is `(n+1)/2` in natural division, and `** (-0.5)` is the
real power. -/
noncomputable def calculate_num_effective_speed_modules
    (num_beaconed_speed_modules : ℕ) : ℝ :=
  if num_beaconed_speed_modules = 0 then 0
  else
    let num_beacons : ℕ := (num_beaconed_speed_modules + 1) / 2
    (num_beaconed_speed_modules : ℝ) * BEACON_EFFICIENCY *
      (num_beacons : ℝ) ^ (-(0.5) : ℝ)

/-- An item as the solver uses it: the raw `{key, type}` record is tagged
with `allows_quality` during `__init__` (lines 178-181); mock resource items
(lines 245-249) carry `allows_quality = false` directly. -/
structure ItemData where
  key : String
  allows_quality : Bool
deriving DecidableEq

/-- A raw item from the data file. -/
structure RawItem where
  key : String
  type : String
deriving DecidableEq

/-- Lines 178-180: `allows_quality` is true unless the item type is fluid. -/
def initItem (raw : RawItem) : ItemData :=
  { key := raw.key, allows_quality := raw.type != "fluid" }

/-- Line 181: the tier list of an item. -/
def itemQualities (max_quality_unlocked : ℕ) (item : ItemData) : List ℕ :=
  if item.allows_quality then List.range (max_quality_unlocked + 1) else [0]

/-- A recipe record from the data file (mock mining recipes use the same
shape, lines 250-261). -/
structure RecipeData where
  key : String
  category : String
  allow_productivity : Bool
  ingredients : List Ingredient
  results : List ResultData
  energy_required : ℚ
deriving DecidableEq

/-- Lines 186-198: a recipe allows quality iff some ingredient's item does. -/
def recipeAllowsQuality (items : String → ItemData) (recipe : RecipeData) : Bool :=
  recipe.ingredients.any fun ing => (items ing.name).allows_quality

/-- Line 199: the tier list of a recipe. -/
def recipeQualities (max_quality_unlocked : ℕ) (items : String → ItemData)
    (recipe : RecipeData) : List ℕ :=
  if recipeAllowsQuality items recipe then List.range (max_quality_unlocked + 1) else [0]

/-- A crafting machine record (mock mining-drill machines use the same
shape, lines 265-278). -/
structure MachineData where
  key : String
  crafting_speed : ℚ
  module_slots : ℕ
  crafting_categories : List String
  prod_bonus : ℚ
deriving DecidableEq

/-! ## Configuration (spec section 6; linear_solver.py lines 132-216) -/

/-- A declared supply, `config['inputs']` entries.  The quality name is
modelled by its tier level. -/
structure InputCfg where
  key : String
  quality : ℕ
  resource : Bool
  cost : ℚ
deriving DecidableEq

/-- A declared demand, `config['outputs']` entries. -/
structure OutputCfg where
  key : String
  quality : ℕ
  amount : ℚ
deriving DecidableEq

/-- The configuration record consumed by `LinearSolver.__init__`
(lines 132-167).  Quality names are modelled by their tier levels.
`building_quality` is carried because the `factorio_solver.py` wrapper puts
it into the config (factorio_solver.py line 138). -/
structure Config where
  quality_module_tier : ℕ
  quality_module_quality : ℕ
  prod_module_tier : ℕ
  prod_module_quality : ℕ
  check_speed_modules : Bool
  speed_module_tier : ℕ
  speed_module_quality : ℕ
  building_quality : String
  max_quality_unlocked : ℕ
  allow_byproducts : Bool
  module_cost : ℚ
  building_cost : ℚ
  allowed_recipes : Option (List String)
  disallowed_recipes : Option (List String)
  allowed_crafting_machines : Option (List String)
  disallowed_crafting_machines : Option (List String)
  inputs : List InputCfg
  outputs : List OutputCfg
deriving DecidableEq

/-- The numeric parameters `LinearSolver.__init__` derives from the config
(lines 136-163).  Tier indices are valid for tiers 1..3 as in the reference
configs; Python's negative indexing for tier 0 is not modelled. -/
structure SolverParams where
  quality_module_probability : ℚ
  prod_module_bonus : ℚ
  speed_module_bonus : ℚ
  possible_num_beaconed_speed_modules : List ℕ
  speed_penalty_per_quality_module : ℚ
  speed_penalty_per_prod_module : ℚ
  quality_penalty_per_speed_module : ℚ
  max_quality_unlocked : ℕ
deriving DecidableEq

/-- Embeds the parameter derivation of `LinearSolver.__init__`
(lines 136-163). -/
def SolverParams.ofConfig (config : Config) : SolverParams where
  quality_module_probability :=
    (QUALITY_PROBABILITIES.getD (config.quality_module_tier - 1) []).getD
      config.quality_module_quality 0
  prod_module_bonus :=
    (PROD_BONUSES.getD (config.prod_module_tier - 1) []).getD
      config.prod_module_quality 0
  speed_module_bonus :=
    (SPEED_BONUSES.getD (config.speed_module_tier - 1) []).getD
      config.speed_module_quality 0
  possible_num_beaconed_speed_modules :=
    if config.check_speed_modules then POSSIBLE_NUM_BEACONED_SPEED_MODULES else [0]
  speed_penalty_per_quality_module :=
    SPEED_PENALTIES_PER_QUALITY_MODULE.getD (config.quality_module_tier - 1) 0
  speed_penalty_per_prod_module :=
    SPEED_PENALTIES_PER_PROD_MODULE.getD (config.prod_module_tier - 1) 0
  quality_penalty_per_speed_module :=
    QUALITY_PENALTIES_PER_SPEED_MODULE.getD (config.speed_module_tier - 1) 0
  max_quality_unlocked := config.max_quality_unlocked

/-! ## Activity enumeration, `setup_recipe_var` (lines 286-357) -/

/-- Line 302-305: number of productivity modules of an activity. -/
def activity_num_prod_modules (recipe : RecipeData) (machine : MachineData)
    (num_qual_modules : ℕ) : ℕ :=
  if recipe.allow_productivity then machine.module_slots - num_qual_modules else 0

/-- Line 312: total productivity bonus of an activity. -/
def activity_prod_bonus (P : SolverParams) (recipe : RecipeData)
    (machine : MachineData) (num_qual_modules : ℕ) : ℚ :=
  (activity_num_prod_modules recipe machine num_qual_modules : ℚ) *
    P.prod_module_bonus + machine.prod_bonus

/-- Line 313: the speed factor of an activity. -/
noncomputable def activity_speed_factor (P : SolverParams) (recipe : RecipeData)
    (machine : MachineData) (num_qual_modules num_beaconed_speed_modules : ℕ) : ℝ :=
  (machine.crafting_speed : ℝ) *
    (1 + calculate_num_effective_speed_modules num_beaconed_speed_modules *
        (P.speed_module_bonus : ℝ)
      - ((num_qual_modules : ℝ) * (P.speed_penalty_per_quality_module : ℝ)
        + (activity_num_prod_modules recipe machine num_qual_modules : ℝ) *
          (P.speed_penalty_per_prod_module : ℝ)))

/-- Line 349: the quality percent handed to the kernel (note: the code does
not clamp this value). -/
noncomputable def activity_quality_percent (P : SolverParams)
    (num_qual_modules num_beaconed_speed_modules : ℕ) : ℝ :=
  (num_qual_modules : ℝ) * (P.quality_module_probability : ℝ)
    - calculate_num_effective_speed_modules num_beaconed_speed_modules *
      (P.quality_penalty_per_speed_module : ℝ)

/-- Lines 330-333: coefficient of an activity on an ingredient node. -/
noncomputable def ingredient_coefficient (P : SolverParams) (recipe : RecipeData)
    (machine : MachineData) (num_qual_modules num_beaconed_speed_modules : ℕ)
    (ingredient : Ingredient) : ℝ :=
  (-1) * ((ingredient.amount : ℝ) *
    activity_speed_factor P recipe machine num_qual_modules num_beaconed_speed_modules /
    (recipe.energy_required : ℝ))

/-- Lines 346-353: coefficient of an activity on the result node
`(r.name, e)`. -/
noncomputable def result_coefficient (P : SolverParams) (items : String → ItemData)
    (recipe : RecipeData) (machine : MachineData)
    (recipe_quality num_qual_modules num_beaconed_speed_modules : ℕ)
    (result_data : ResultData) (result_quality : ℕ) : ℝ :=
  (calculate_expected_amount result_data
      (activity_prod_bonus P recipe machine num_qual_modules) : ℝ) *
    activity_speed_factor P recipe machine num_qual_modules num_beaconed_speed_modules *
    (if (items result_data.name).allows_quality then
      qualityFactor recipe_quality result_quality P.max_quality_unlocked
        (activity_quality_percent P num_qual_modules num_beaconed_speed_modules)
    else 1) /
    (recipe.energy_required : ℝ)

/-- Lines 337-343: the ending tiers a result is produced at. -/
def resultQualitiesFor (items : String → ItemData) (max_quality_unlocked : ℕ)
    (recipe_quality : ℕ) (result_data : ResultData) : List ℕ :=
  let result_item := items result_data.name
  if result_item.allows_quality then
    (itemQualities max_quality_unlocked result_item).filter
      fun quality => recipe_quality ≤ quality
  else itemQualities max_quality_unlocked result_item

/-- One LP column produced by `setup_recipe_var`: the loop body of
lines 301-357 for a fixed `(recipe_quality, num_qual, num_beaconed)` tuple.
`itemCoeffs` lists the `(item key, tier, coefficient)` contributions the
body appends to `solver_items`. -/
structure Activity where
  recipe_quality : ℕ
  num_qual_modules : ℕ
  num_prod_modules : ℕ
  num_beaconed_speed_modules : ℕ
  quality_percent : ℝ
  speed_factor : ℝ
  itemCoeffs : List (String × ℕ × ℝ)

/-- The loop body of `setup_recipe_var` (lines 301-357). -/
noncomputable def mkActivity (P : SolverParams) (items : String → ItemData)
    (recipe : RecipeData) (machine : MachineData)
    (recipe_quality num_qual_modules num_beaconed_speed_modules : ℕ) : Activity where
  recipe_quality := recipe_quality
  num_qual_modules := num_qual_modules
  num_prod_modules := activity_num_prod_modules recipe machine num_qual_modules
  num_beaconed_speed_modules := num_beaconed_speed_modules
  quality_percent := activity_quality_percent P num_qual_modules num_beaconed_speed_modules
  speed_factor :=
    activity_speed_factor P recipe machine num_qual_modules num_beaconed_speed_modules
  itemCoeffs :=
    (recipe.ingredients.map fun ingredient =>
      (ingredient.name,
       if (items ingredient.name).allows_quality then recipe_quality else 0,
       ingredient_coefficient P recipe machine num_qual_modules
         num_beaconed_speed_modules ingredient))
    ++ (recipe.results.flatMap fun result_data =>
      (resultQualitiesFor items P.max_quality_unlocked recipe_quality result_data).map
        fun result_quality =>
          (result_data.name, result_quality,
           result_coefficient P items recipe machine recipe_quality num_qual_modules
             num_beaconed_speed_modules result_data result_quality))

/-- Embeds `setup_recipe_var` (lines 286-357): the list of activities
enumerated by the `itertools.product` loop of line 301. -/
noncomputable def setup_recipe_var (P : SolverParams) (items : String → ItemData)
    (recipe : RecipeData) (machine : MachineData) : List Activity :=
  (recipeQualities P.max_quality_unlocked items recipe).flatMap fun recipe_quality =>
    (List.range (machine.module_slots + 1)).flatMap fun num_qual_modules =>
      P.possible_num_beaconed_speed_modules.map fun num_beaconed_speed_modules =>
        mkActivity P items recipe machine recipe_quality num_qual_modules
          num_beaconed_speed_modules

lemma mem_setup_recipe_var {P : SolverParams} {items : String → ItemData}
    {recipe : RecipeData} {machine : MachineData} {A : Activity} :
    A ∈ setup_recipe_var P items recipe machine ↔
      ∃ rq ∈ recipeQualities P.max_quality_unlocked items recipe,
        ∃ nq ∈ List.range (machine.module_slots + 1),
          ∃ nb ∈ P.possible_num_beaconed_speed_modules,
            A = mkActivity P items recipe machine rq nq nb := by
  simp only [setup_recipe_var, List.mem_flatMap, List.mem_map]
  constructor
  · rintro ⟨rq, hrq, nq, hnq, nb, hnb, hA⟩
    exact ⟨rq, hrq, nq, hnq, nb, hnb, hA.symm⟩
  · rintro ⟨rq, hrq, nq, hnq, nb, hnb, hA⟩
    exact ⟨rq, hrq, nq, hnq, nb, hnb, hA.symm⟩

/-- C2: activity coefficient correctness.  Every activity enumerated by
`setup_recipe_var` contributes, for each ingredient `i`, the coefficient
`-i.amount * speed / energy_required` to node
`(i.name, tier if the item allows quality else 0)`; for each
quality-eligible result `r` and every ending tier
`e ∈ [tier..max_quality_unlocked]`, the coefficient
`expected(r, prod) * speed * QualityFactor(tier, e, M, q) / energy_required`
to node `(r.name, e)`; and for each quality-ineligible result the
coefficient `expected(r, prod) * speed / energy_required` to node
`(r.name, 0)`. -/
theorem setup_recipe_var_coefficient_spec
    (P : SolverParams) (items : String → ItemData) (recipe : RecipeData)
    (machine : MachineData) (A : Activity)
    (hA : A ∈ setup_recipe_var P items recipe machine) :
    (∀ ingredient ∈ recipe.ingredients,
      (ingredient.name,
       if (items ingredient.name).allows_quality then A.recipe_quality else 0,
       (-1) * ((ingredient.amount : ℝ) * A.speed_factor / (recipe.energy_required : ℝ)))
        ∈ A.itemCoeffs)
    ∧ (∀ result_data ∈ recipe.results,
        (items result_data.name).allows_quality = true →
        ∀ e, A.recipe_quality ≤ e → e ≤ P.max_quality_unlocked →
          (result_data.name, e,
           (calculate_expected_amount result_data
              ((A.num_prod_modules : ℚ) * P.prod_module_bonus + machine.prod_bonus) : ℝ)
             * A.speed_factor
             * qualityFactor A.recipe_quality e P.max_quality_unlocked A.quality_percent
             / (recipe.energy_required : ℝ)) ∈ A.itemCoeffs)
    ∧ (∀ result_data ∈ recipe.results,
        (items result_data.name).allows_quality = false →
          (result_data.name, 0,
           (calculate_expected_amount result_data
              ((A.num_prod_modules : ℚ) * P.prod_module_bonus + machine.prod_bonus) : ℝ)
             * A.speed_factor / (recipe.energy_required : ℝ)) ∈ A.itemCoeffs) := by
  obtain ⟨rq, hrq, nq, hnq, nb, hnb, rfl⟩ := mem_setup_recipe_var.mp hA
  refine ⟨?_, ?_, ?_⟩
  · intro ingredient hing
    apply List.mem_append_left
    exact List.mem_map.mpr ⟨ingredient, hing, rfl⟩
  · intro result_data hr hq e he1 he2
    apply List.mem_append_right
    apply List.mem_flatMap.mpr
    refine ⟨result_data, hr, ?_⟩
    apply List.mem_map.mpr
    refine ⟨e, ?_, ?_⟩
    · simp only [resultQualitiesFor, itemQualities, hq, if_true, List.mem_filter,
        List.mem_range, decide_eq_true_eq]
      exact ⟨by omega, he1⟩
    · simp only [mkActivity, result_coefficient, activity_prod_bonus, hq, if_true]
  · intro result_data hr hq
    apply List.mem_append_right
    apply List.mem_flatMap.mpr
    refine ⟨result_data, hr, ?_⟩
    apply List.mem_map.mpr
    refine ⟨0, ?_, ?_⟩
    · simp only [resultQualitiesFor, itemQualities, hq, Bool.false_eq_true, if_false,
        List.mem_singleton]
    · simp only [mkActivity, result_coefficient, activity_prod_bonus, hq,
        Bool.false_eq_true, if_false, mul_one]

/-- Concrete catalog used by the C2 witness: a one-ingredient one-result
recipe in a machine without module slots. -/
def itemsC2 : String → ItemData := fun key => ⟨key, true⟩

def recipeC2 : RecipeData :=
  ⟨"gear-recipe", "crafting", false, [⟨"iron", 1⟩],
    [⟨"gear", .fixed 1, none, none, none⟩], 1⟩

def machineC2 : MachineData := ⟨"assembler", 1, 0, ["crafting"], 0⟩

def paramsC2 : SolverParams := ⟨0, 0, 0, [0], 0, 0, 0, 0⟩

lemma mkActivityC2_mem :
    mkActivity paramsC2 itemsC2 recipeC2 machineC2 0 0 0
      ∈ setup_recipe_var paramsC2 itemsC2 recipeC2 machineC2 :=
  mem_setup_recipe_var.mpr ⟨0, by decide, 0, by decide, 0, by decide, rfl⟩

/-- Witness for C2: the ingredient coefficient of the single enumerated
activity of the concrete catalog. -/
theorem setup_recipe_var_coefficient_spec_witness :
    ("iron",
     if (itemsC2 "iron").allows_quality then
       (mkActivity paramsC2 itemsC2 recipeC2 machineC2 0 0 0).recipe_quality
     else 0,
     (-1) * (((1 : ℚ) : ℝ) *
       (mkActivity paramsC2 itemsC2 recipeC2 machineC2 0 0 0).speed_factor /
       ((1 : ℚ) : ℝ)))
      ∈ (mkActivity paramsC2 itemsC2 recipeC2 machineC2 0 0 0).itemCoeffs :=
  (setup_recipe_var_coefficient_spec paramsC2 itemsC2 recipeC2 machineC2 _
    mkActivityC2_mem).1 ⟨"iron", 1⟩ (by simp [recipeC2])

/-- Configuration used by the C3 counterexample: tier-1 modules, beaconed
speed modules enabled. -/
def configC3 : Config :=
  { quality_module_tier := 1, quality_module_quality := 0,
    prod_module_tier := 1, prod_module_quality := 0,
    check_speed_modules := true, speed_module_tier := 1, speed_module_quality := 0,
    building_quality := "normal", max_quality_unlocked := 4,
    allow_byproducts := false, module_cost := 1, building_cost := 1,
    allowed_recipes := none, disallowed_recipes := none,
    allowed_crafting_machines := none, disallowed_crafting_machines := none,
    inputs := [], outputs := [] }

def paramsC3 : SolverParams := SolverParams.ofConfig configC3

def itemsC3 : String → ItemData := fun key => ⟨key, true⟩

def recipeC3 : RecipeData :=
  ⟨"gears", "crafting", false, [⟨"iron", 1⟩],
    [⟨"gear", .fixed 1, none, none, none⟩], 1⟩

def machineC3 : MachineData := ⟨"assembler", 1, 0, ["crafting"], 0⟩

lemma eff_speed_modules_two : calculate_num_effective_speed_modules 2 = 3 := by
  unfold calculate_num_effective_speed_modules
  rw [if_neg (by norm_num)]
  norm_num [BEACON_EFFICIENCY, Real.one_rpow]

/-- C3 counterexample: with `n_qual = 0` and two beaconed speed modules
(an activity the enumeration produces whenever `check_speed_modules` is
set), the quality probability handed to the kernel is `-0.03 < 0`: it is
not clamped to `[0, 1]` as the claim states. -/
theorem quality_percent_not_clamped_counterexample :
    mkActivity paramsC3 itemsC3 recipeC3 machineC3 0 0 2
      ∈ setup_recipe_var paramsC3 itemsC3 recipeC3 machineC3
    ∧ (mkActivity paramsC3 itemsC3 recipeC3 machineC3 0 0 2).quality_percent
        = -(3 / 100 : ℝ) := by
  constructor
  · exact mem_setup_recipe_var.mpr ⟨0, by decide, 0, by decide, 2, by decide, rfl⟩
  · show activity_quality_percent paramsC3 0 2 = -(3 / 100 : ℝ)
    have hpen : paramsC3.quality_penalty_per_speed_module = 1 / 100 := by
      norm_num [paramsC3, SolverParams.ofConfig, configC3,
        QUALITY_PENALTIES_PER_SPEED_MODULE]
    unfold activity_quality_percent
    rw [hpen, eff_speed_modules_two]
    norm_num

/-- C3 amended: the quality probability an enumerated activity passes to the
kernel equals `n_qual * qual_prob_per_module -
eff_beacon * quality_penalty_per_speed_module` with NO clamping (so it can
be negative when `n_qual = 0` and beacons are present). -/
theorem activity_quality_percent_formula
    (P : SolverParams) (items : String → ItemData) (recipe : RecipeData)
    (machine : MachineData) (A : Activity)
    (hA : A ∈ setup_recipe_var P items recipe machine) :
    A.quality_percent =
      (A.num_qual_modules : ℝ) * (P.quality_module_probability : ℝ)
        - calculate_num_effective_speed_modules A.num_beaconed_speed_modules *
          (P.quality_penalty_per_speed_module : ℝ) := by
  obtain ⟨rq, hrq, nq, hnq, nb, hnb, rfl⟩ := mem_setup_recipe_var.mp hA
  rfl

/-- Witness for the amended C3 at a concrete enumerated activity. -/
theorem activity_quality_percent_formula_witness :
    (mkActivity paramsC3 itemsC3 recipeC3 machineC3 0 0 1).quality_percent =
      ((mkActivity paramsC3 itemsC3 recipeC3 machineC3 0 0 1).num_qual_modules : ℝ) *
        (paramsC3.quality_module_probability : ℝ)
        - calculate_num_effective_speed_modules
            (mkActivity paramsC3 itemsC3 recipeC3 machineC3 0 0 1).num_beaconed_speed_modules *
          (paramsC3.quality_penalty_per_speed_module : ℝ) :=
  activity_quality_percent_formula paramsC3 itemsC3 recipeC3 machineC3 _
    (mem_setup_recipe_var.mpr ⟨0, by decide, 0, by decide, 1, by decide, rfl⟩)

/-- C9: `LinearSolver` never reads `config['building_quality']` (the only
occurrence of the key in the repository is `factorio_solver.py` line 138,
which stores it into the config).  Two configurations that differ only in
`building_quality` therefore yield identical solver parameters and
identical activity coefficients - the crafting speed is NOT scaled, in
contradiction with the claim and with the wrapper's own help text. -/
theorem building_quality_has_no_effect (config : Config) (bq : String) :
    SolverParams.ofConfig { config with building_quality := bq } =
      SolverParams.ofConfig config
    ∧ ∀ (items : String → ItemData) (recipe : RecipeData) (machine : MachineData),
        setup_recipe_var (SolverParams.ofConfig { config with building_quality := bq })
            items recipe machine
          = setup_recipe_var (SolverParams.ofConfig config) items recipe machine :=
  ⟨rfl, fun _ _ _ => rfl⟩

lemma eff_speed_modules_zero : calculate_num_effective_speed_modules 0 = 0 := by
  simp [calculate_num_effective_speed_modules]

lemma eff_speed_modules_nonneg (nb : ℕ) :
    0 ≤ calculate_num_effective_speed_modules nb := by
  unfold calculate_num_effective_speed_modules BEACON_EFFICIENCY
  split_ifs with h
  · exact le_refl 0
  · show 0 ≤ (nb : ℝ) * 1.5 * (((nb + 1) / 2 : ℕ) : ℝ) ^ (-(0.5) : ℝ)
    positivity

/-- Configuration used by the C4 counterexample: tier-3 legendary quality
and productivity modules (the spec's own scenario S1 module setup). -/
def configC4 : Config :=
  { quality_module_tier := 3, quality_module_quality := 4,
    prod_module_tier := 3, prod_module_quality := 4,
    check_speed_modules := false, speed_module_tier := 3, speed_module_quality := 4,
    building_quality := "normal", max_quality_unlocked := 4,
    allow_byproducts := false, module_cost := 1, building_cost := 1,
    allowed_recipes := none, disallowed_recipes := none,
    allowed_crafting_machines := none, disallowed_crafting_machines := none,
    inputs := [], outputs := [] }

def paramsC4 : SolverParams := SolverParams.ofConfig configC4

def itemsC4 : String → ItemData := fun key => ⟨key, true⟩

def gearResultC4 : ResultData := ⟨"gear", .fixed 1, none, none, none⟩

def recipeC4 : RecipeData :=
  ⟨"gears", "crafting", true, [⟨"iron", 1⟩], [gearResultC4], 1⟩

def machineC4 : MachineData := ⟨"assembler", 1, 4, ["crafting"], 0⟩

/-- C4 counterexample: with tier-3 legendary modules (prod bonus 0.25 per
module, 0.15 speed penalty per prod module vs 0.05 per quality module), a
4-slot machine, recipe tier 0, no beacons, raising `n_qual` from 0 to 1
(so `n_prod` drops from 4 to 3) INCREASES the same-tier result coefficient
from 0.8 to 0.82075: the claimed non-increase fails. -/
theorem result_coefficient_not_monotone_counterexample :
    (1 ∈ List.range (machineC4.module_slots + 1))
    ∧ result_coefficient paramsC4 itemsC4 recipeC4 machineC4 0 0 0 gearResultC4 0
        < result_coefficient paramsC4 itemsC4 recipeC4 machineC4 0 1 0 gearResultC4 0 := by
  constructor
  · decide
  · have hqp : paramsC4.quality_module_probability = 31 / 500 := by
      norm_num [paramsC4, SolverParams.ofConfig, configC4, QUALITY_PROBABILITIES]
    have hpm : paramsC4.prod_module_bonus = 1 / 4 := by
      norm_num [paramsC4, SolverParams.ofConfig, configC4, PROD_BONUSES]
    have hpenq : paramsC4.speed_penalty_per_quality_module = 1 / 20 := by
      norm_num [paramsC4, SolverParams.ofConfig, configC4,
        SPEED_PENALTIES_PER_QUALITY_MODULE]
    have hpenp : paramsC4.speed_penalty_per_prod_module = 3 / 20 := by
      norm_num [paramsC4, SolverParams.ofConfig, configC4,
        SPEED_PENALTIES_PER_PROD_MODULE]
    have hpens : paramsC4.quality_penalty_per_speed_module = 1 / 40 := by
      norm_num [paramsC4, SolverParams.ofConfig, configC4,
        QUALITY_PENALTIES_PER_SPEED_MODULE]
    have hM : paramsC4.max_quality_unlocked = 4 := rfl
    have hqf0 : ∀ q : ℝ, qualityFactor 0 0 paramsC4.max_quality_unlocked q = 1 - q := by
      intro q
      rw [hM]
      exact qualityFactor_same_below_max 0 4 q (by norm_num)
    simp only [result_coefficient, itemsC4, if_true, hqf0,
      activity_quality_percent, activity_speed_factor, activity_prod_bonus,
      activity_num_prod_modules, calculate_expected_amount, baseAmount,
      gearResultC4, recipeC4, machineC4, eff_speed_modules_zero,
      hqp, hpm, hpenq, hpenp, hpens]
    norm_num

lemma calculate_expected_amount_expand (r : ResultData) (prod_bonus : ℚ) :
    calculate_expected_amount r prod_bonus =
      (r.ignored_by_productivity.getD 0 +
        (baseAmount r - r.ignored_by_productivity.getD 0) * (1 + prod_bonus)) *
        r.probability.getD 1 * (1 + r.extra_count_fraction.getD 0) := rfl

lemma calculate_expected_amount_nonneg (r : ResultData) (prod_bonus : ℚ)
    (h1 : 0 ≤ r.ignored_by_productivity.getD 0)
    (h2 : r.ignored_by_productivity.getD 0 ≤ baseAmount r)
    (h3 : 0 ≤ r.probability.getD 1)
    (h4 : 0 ≤ 1 + r.extra_count_fraction.getD 0)
    (hp : 0 ≤ prod_bonus) :
    0 ≤ calculate_expected_amount r prod_bonus := by
  rw [calculate_expected_amount_expand]
  have hbase : 0 ≤ r.ignored_by_productivity.getD 0 +
      (baseAmount r - r.ignored_by_productivity.getD 0) * (1 + prod_bonus) := by
    nlinarith
  exact mul_nonneg (mul_nonneg hbase h3) h4

lemma calculate_expected_amount_mono (r : ResultData) (p1 p2 : ℚ)
    (h2 : r.ignored_by_productivity.getD 0 ≤ baseAmount r)
    (h3 : 0 ≤ r.probability.getD 1)
    (h4 : 0 ≤ 1 + r.extra_count_fraction.getD 0)
    (hp : p1 ≤ p2) :
    calculate_expected_amount r p1 ≤ calculate_expected_amount r p2 := by
  rw [calculate_expected_amount_expand, calculate_expected_amount_expand]
  nlinarith [mul_nonneg (mul_nonneg (mul_nonneg (sub_nonneg.mpr h2)
    (sub_nonneg.mpr hp)) h3) h4]

lemma result_coefficient_of_allows (P : SolverParams) (items : String → ItemData)
    (recipe : RecipeData) (machine : MachineData) (rq nq nb : ℕ)
    (r : ResultData) (e : ℕ) (h : (items r.name).allows_quality = true) :
    result_coefficient P items recipe machine rq nq nb r e =
      (calculate_expected_amount r (activity_prod_bonus P recipe machine nq) : ℝ) *
        activity_speed_factor P recipe machine nq nb *
        qualityFactor rq e P.max_quality_unlocked (activity_quality_percent P nq nb) /
        (recipe.energy_required : ℝ) := by
  unfold result_coefficient
  rw [if_pos h]

/-- C4 amended: the claimed monotonicity holds under the side conditions the
counterexample shows are necessary: the speed penalty per prod module must
equal the penalty per quality module (so the speed factor is unchanged when
a prod module is swapped for a quality module), the result record must be
well-formed, the speed factor non-negative, quality probability at the
larger count at most 1 for the same-tier part, and for the
strictly-higher-tier part the per-module prod bonus must satisfy
`pm * (2*n_qual + 1 - slots) ≤ 1 + machine_prod_bonus`. -/
theorem result_coefficient_monotone_amended
    (P : SolverParams) (items : String → ItemData) (recipe : RecipeData)
    (machine : MachineData) (r : ResultData) (rq nq nb : ℕ)
    (hprod : recipe.allow_productivity = true)
    (hslots : nq + 1 ≤ machine.module_slots)
    (hpen : P.speed_penalty_per_prod_module = P.speed_penalty_per_quality_module)
    (hqp : 0 ≤ P.quality_module_probability)
    (hpm : 0 ≤ P.prod_module_bonus)
    (hmb : 0 ≤ machine.prod_bonus)
    (hsp : 0 ≤ P.quality_penalty_per_speed_module)
    (hign : 0 ≤ r.ignored_by_productivity.getD 0)
    (hignb : r.ignored_by_productivity.getD 0 ≤ baseAmount r)
    (hprob : 0 ≤ r.probability.getD 1)
    (hex : 0 ≤ 1 + r.extra_count_fraction.getD 0)
    (hEreq : 0 < recipe.energy_required)
    (hspeed : 0 ≤ activity_speed_factor P recipe machine nq nb)
    (hallows : (items r.name).allows_quality = true)
    (hrqM : rq ≤ P.max_quality_unlocked) :
    (activity_quality_percent P (nq + 1) nb ≤ 1 →
      result_coefficient P items recipe machine rq (nq + 1) nb r rq
        ≤ result_coefficient P items recipe machine rq nq nb r rq)
    ∧ (∀ e, rq < e → e ≤ P.max_quality_unlocked →
        P.prod_module_bonus * (2 * (nq : ℚ) + 1 - (machine.module_slots : ℚ))
          ≤ 1 + machine.prod_bonus →
        result_coefficient P items recipe machine rq nq nb r e
          ≤ result_coefficient P items recipe machine rq (nq + 1) nb r e) := by
  have hc : (0 : ℝ) < (recipe.energy_required : ℝ) := by exact_mod_cast hEreq
  have hnq : nq ≤ machine.module_slots := by omega
  have hnp1 : activity_num_prod_modules recipe machine (nq + 1)
      = machine.module_slots - (nq + 1) := by
    unfold activity_num_prod_modules; rw [if_pos hprod]
  have hnp0 : activity_num_prod_modules recipe machine nq
      = machine.module_slots - nq := by
    unfold activity_num_prod_modules; rw [if_pos hprod]
  have hspeedEq : activity_speed_factor P recipe machine (nq + 1) nb
      = activity_speed_factor P recipe machine nq nb := by
    unfold activity_speed_factor
    rw [hnp1, hnp0, hpen,
      Nat.cast_sub hslots, Nat.cast_sub hnq]
    push_cast
    ring
  have hpb1 : activity_prod_bonus P recipe machine (nq + 1) =
      ((machine.module_slots : ℚ) - nq - 1) * P.prod_module_bonus
        + machine.prod_bonus := by
    unfold activity_prod_bonus
    rw [hnp1, Nat.cast_sub hslots]
    push_cast
    ring
  have hpb0 : activity_prod_bonus P recipe machine nq =
      ((machine.module_slots : ℚ) - nq) * P.prod_module_bonus
        + machine.prod_bonus := by
    unfold activity_prod_bonus
    rw [hnp0, Nat.cast_sub hnq]
  have hSn : ((nq : ℚ) + 1) ≤ (machine.module_slots : ℚ) := by exact_mod_cast hslots
  have hpbnn1 : 0 ≤ activity_prod_bonus P recipe machine (nq + 1) := by
    rw [hpb1]
    nlinarith [mul_nonneg (show (0:ℚ) ≤ (machine.module_slots : ℚ) - nq - 1 by linarith) hpm]
  have hpbnn0 : 0 ≤ activity_prod_bonus P recipe machine nq := by
    rw [hpb0]
    nlinarith [mul_nonneg (show (0:ℚ) ≤ (machine.module_slots : ℚ) - nq by linarith) hpm]
  have hEmono : calculate_expected_amount r (activity_prod_bonus P recipe machine (nq + 1))
      ≤ calculate_expected_amount r (activity_prod_bonus P recipe machine nq) := by
    refine calculate_expected_amount_mono r _ _ hignb hprob hex ?_
    rw [hpb1, hpb0]
    nlinarith
  have hEnn1 : 0 ≤ calculate_expected_amount r (activity_prod_bonus P recipe machine (nq + 1)) :=
    calculate_expected_amount_nonneg r _ hign hignb hprob hex hpbnn1
  have hEnn0 : 0 ≤ calculate_expected_amount r (activity_prod_bonus P recipe machine nq) :=
    calculate_expected_amount_nonneg r _ hign hignb hprob hex hpbnn0
  have hqstep : activity_quality_percent P (nq + 1) nb =
      activity_quality_percent P nq nb + (P.quality_module_probability : ℝ) := by
    unfold activity_quality_percent
    push_cast
    ring
  have hqpR : (0 : ℝ) ≤ (P.quality_module_probability : ℝ) := by exact_mod_cast hqp
  constructor
  · intro hq1
    rw [result_coefficient_of_allows P items recipe machine rq (nq + 1) nb r rq hallows,
      result_coefficient_of_allows P items recipe machine rq nq nb r rq hallows,
      hspeedEq, div_le_div_right hc]
    rcases lt_or_eq_of_le hrqM with hlt | hEq
    · rw [qualityFactor_same_below_max rq P.max_quality_unlocked
        (activity_quality_percent P (nq + 1) nb) hlt,
        qualityFactor_same_below_max rq P.max_quality_unlocked
        (activity_quality_percent P nq nb) hlt]
      have h1 : 1 - activity_quality_percent P (nq + 1) nb
          ≤ 1 - activity_quality_percent P nq nb := by
        rw [hqstep]; linarith
      have h0 : 0 ≤ 1 - activity_quality_percent P (nq + 1) nb := by linarith
      have hEcast : (calculate_expected_amount r
            (activity_prod_bonus P recipe machine (nq + 1)) : ℝ)
          ≤ (calculate_expected_amount r (activity_prod_bonus P recipe machine nq) : ℝ) := by
        exact_mod_cast hEmono
      have hEcast1 : (0 : ℝ) ≤ (calculate_expected_amount r
          (activity_prod_bonus P recipe machine (nq + 1)) : ℝ) := by exact_mod_cast hEnn1
      have hEcast0 : (0 : ℝ) ≤ (calculate_expected_amount r
          (activity_prod_bonus P recipe machine nq) : ℝ) := by exact_mod_cast hEnn0
      exact mul_le_mul (mul_le_mul_of_nonneg_right hEcast hspeed) h1 h0
        (mul_nonneg hEcast0 hspeed)
    · rw [qualityFactor_same_at_max rq P.max_quality_unlocked
        (activity_quality_percent P (nq + 1) nb) hEq,
        qualityFactor_same_at_max rq P.max_quality_unlocked
        (activity_quality_percent P nq nb) hEq,
        mul_one, mul_one]
      have hEcast : (calculate_expected_amount r
            (activity_prod_bonus P recipe machine (nq + 1)) : ℝ)
          ≤ (calculate_expected_amount r (activity_prod_bonus P recipe machine nq) : ℝ) := by
        exact_mod_cast hEmono
      exact mul_le_mul_of_nonneg_right hEcast hspeed
  · intro e he1 he2 hG
    rw [result_coefficient_of_allows P items recipe machine rq (nq + 1) nb r e hallows,
      result_coefficient_of_allows P items recipe machine rq nq nb r e hallows,
      hspeedEq, div_le_div_right hc]
    obtain ⟨K, hK0, hKval⟩ : ∃ K : ℝ, 0 ≤ K ∧ ∀ q : ℝ,
        qualityFactor rq e P.max_quality_unlocked q = q * K := by
      rcases lt_or_eq_of_le he2 with hlt | hEq2
      · refine ⟨(1 - JUMP_QUALITY_PROBABILITY) *
          JUMP_QUALITY_PROBABILITY ^ (e - rq - 1), ?_, ?_⟩
        · unfold JUMP_QUALITY_PROBABILITY
          positivity
        · intro q
          rw [qualityFactor_jump_below_max rq e P.max_quality_unlocked q he1 hlt]
          ring
      · refine ⟨JUMP_QUALITY_PROBABILITY ^ (e - rq - 1), ?_, ?_⟩
        · unfold JUMP_QUALITY_PROBABILITY
          positivity
        · intro q
          rw [hEq2, qualityFactor_jump_at_max rq P.max_quality_unlocked q (by omega)]
    rw [hKval, hKval]
    have hd : (0 : ℝ) ≤ calculate_num_effective_speed_modules nb *
        (P.quality_penalty_per_speed_module : ℝ) :=
      mul_nonneg (eff_speed_modules_nonneg nb) (by exact_mod_cast hsp)
    have key : (calculate_expected_amount r (activity_prod_bonus P recipe machine nq) : ℝ)
          * activity_quality_percent P nq nb
        ≤ (calculate_expected_amount r (activity_prod_bonus P recipe machine (nq + 1)) : ℝ)
          * activity_quality_percent P (nq + 1) nb := by
      rw [calculate_expected_amount_expand, calculate_expected_amount_expand,
        hpb1, hpb0]
      unfold activity_quality_percent
      have hignR : (0 : ℝ) ≤ (r.ignored_by_productivity.getD 0 : ℚ) := by exact_mod_cast hign
      have hignbR : ((r.ignored_by_productivity.getD 0 : ℚ) : ℝ) ≤ (baseAmount r : ℝ) := by
        exact_mod_cast hignb
      have hprobR : (0 : ℝ) ≤ ((r.probability.getD 1 : ℚ) : ℝ) := by exact_mod_cast hprob
      have hexR : (0 : ℝ) ≤ 1 + ((r.extra_count_fraction.getD 0 : ℚ) : ℝ) := by
        exact_mod_cast hex
      have hpmR : (0 : ℝ) ≤ (P.prod_module_bonus : ℝ) := by exact_mod_cast hpm
      have hGR : (P.prod_module_bonus : ℝ) *
          (2 * (nq : ℝ) + 1 - (machine.module_slots : ℝ)) ≤
          1 + (machine.prod_bonus : ℝ) := by exact_mod_cast hG
      push_cast
      nlinarith [mul_nonneg (mul_nonneg hprobR hexR) (mul_nonneg hignR hqpR),
        mul_nonneg (mul_nonneg (mul_nonneg hprobR hexR)
          (mul_nonneg (sub_nonneg.mpr hignbR) hqpR)) (sub_nonneg.mpr hGR),
        mul_nonneg (mul_nonneg (mul_nonneg hprobR hexR)
          (mul_nonneg (sub_nonneg.mpr hignbR) hpmR)) hd]
    calc (calculate_expected_amount r (activity_prod_bonus P recipe machine nq) : ℝ) *
          activity_speed_factor P recipe machine nq nb *
          (activity_quality_percent P nq nb * K)
        = ((calculate_expected_amount r (activity_prod_bonus P recipe machine nq) : ℝ) *
            activity_quality_percent P nq nb) *
          (activity_speed_factor P recipe machine nq nb * K) := by ring
      _ ≤ ((calculate_expected_amount r (activity_prod_bonus P recipe machine (nq + 1)) : ℝ) *
            activity_quality_percent P (nq + 1) nb) *
          (activity_speed_factor P recipe machine nq nb * K) :=
        mul_le_mul_of_nonneg_right key (mul_nonneg hspeed hK0)
      _ = (calculate_expected_amount r (activity_prod_bonus P recipe machine (nq + 1)) : ℝ) *
          activity_speed_factor P recipe machine nq nb *
          (activity_quality_percent P (nq + 1) nb * K) := by ring

/-- Configuration used by the C4 witness: tier-1 modules, whose prod-module
speed penalty (0.05) equals the quality-module speed penalty. -/
def configC4w : Config :=
  { quality_module_tier := 1, quality_module_quality := 0,
    prod_module_tier := 1, prod_module_quality := 0,
    check_speed_modules := false, speed_module_tier := 1, speed_module_quality := 0,
    building_quality := "normal", max_quality_unlocked := 2,
    allow_byproducts := false, module_cost := 1, building_cost := 1,
    allowed_recipes := none, disallowed_recipes := none,
    allowed_crafting_machines := none, disallowed_crafting_machines := none,
    inputs := [], outputs := [] }

def paramsC4w : SolverParams := SolverParams.ofConfig configC4w

def recipeC4w : RecipeData :=
  ⟨"gears", "crafting", true, [⟨"iron", 1⟩], [gearResultC4], 1⟩

def machineC4w : MachineData := ⟨"assembler", 1, 2, ["crafting"], 0⟩

/-- Witness for the amended C4 at a concrete tier-1 setup: raising `n_qual`
from 0 to 1 does not increase the same-tier coefficient and does not
decrease the tier-1 coefficient. -/
theorem result_coefficient_monotone_amended_witness :
    (result_coefficient paramsC4w itemsC4 recipeC4w machineC4w 0 1 0 gearResultC4 0
      ≤ result_coefficient paramsC4w itemsC4 recipeC4w machineC4w 0 0 0 gearResultC4 0)
    ∧ (result_coefficient paramsC4w itemsC4 recipeC4w machineC4w 0 0 0 gearResultC4 1
      ≤ result_coefficient paramsC4w itemsC4 recipeC4w machineC4w 0 1 0 gearResultC4 1) := by
  have hpen : paramsC4w.speed_penalty_per_prod_module =
      paramsC4w.speed_penalty_per_quality_module := by
    norm_num [paramsC4w, SolverParams.ofConfig, configC4w,
      SPEED_PENALTIES_PER_PROD_MODULE, SPEED_PENALTIES_PER_QUALITY_MODULE]
  have hqp : (0 : ℚ) ≤ paramsC4w.quality_module_probability := by
    norm_num [paramsC4w, SolverParams.ofConfig, configC4w, QUALITY_PROBABILITIES]
  have hpm : (0 : ℚ) ≤ paramsC4w.prod_module_bonus := by
    norm_num [paramsC4w, SolverParams.ofConfig, configC4w, PROD_BONUSES]
  have hsp : (0 : ℚ) ≤ paramsC4w.quality_penalty_per_speed_module := by
    norm_num [paramsC4w, SolverParams.ofConfig, configC4w,
      QUALITY_PENALTIES_PER_SPEED_MODULE]
  have hspeed : (0 : ℝ) ≤ activity_speed_factor paramsC4w recipeC4w machineC4w 0 0 := by
    have hpenq : paramsC4w.speed_penalty_per_quality_module = 1 / 20 := by
      norm_num [paramsC4w, SolverParams.ofConfig, configC4w,
        SPEED_PENALTIES_PER_QUALITY_MODULE]
    have hpenp : paramsC4w.speed_penalty_per_prod_module = 1 / 20 := by
      norm_num [paramsC4w, SolverParams.ofConfig, configC4w,
        SPEED_PENALTIES_PER_PROD_MODULE]
    simp only [activity_speed_factor, activity_num_prod_modules,
      eff_speed_modules_zero, recipeC4w, machineC4w, hpenq, hpenp]
    norm_num
  have hq1 : activity_quality_percent paramsC4w (0 + 1) 0 ≤ 1 := by
    have hqpv : paramsC4w.quality_module_probability = 1 / 100 := by
      norm_num [paramsC4w, SolverParams.ofConfig, configC4w, QUALITY_PROBABILITIES]
    simp only [activity_quality_percent, eff_speed_modules_zero, hqpv]
    norm_num
  have hG : paramsC4w.prod_module_bonus *
      (2 * ((0 : ℕ) : ℚ) + 1 - (machineC4w.module_slots : ℚ))
      ≤ 1 + machineC4w.prod_bonus := by
    have hpmv : paramsC4w.prod_module_bonus = 1 / 25 := by
      norm_num [paramsC4w, SolverParams.ofConfig, configC4w, PROD_BONUSES]
    simp only [machineC4w, hpmv]
    norm_num
  have h := result_coefficient_monotone_amended paramsC4w itemsC4 recipeC4w machineC4w
    gearResultC4 0 0 0 rfl (by norm_num [machineC4w]) hpen hqp hpm
    (by norm_num [machineC4w]) hsp (by norm_num [gearResultC4])
    (by norm_num [gearResultC4, baseAmount]) (by norm_num [gearResultC4])
    (by norm_num [gearResultC4]) (by norm_num [recipeC4w]) hspeed rfl
    (by norm_num [paramsC4w, SolverParams.ofConfig, configC4w])
  exact ⟨h.1 hq1, h.2 1 (by norm_num)
    (by norm_num [paramsC4w, SolverParams.ofConfig, configC4w]) hG⟩

/-! ## Allow/deny lists and machine selection (lines 218-236, 359-381) -/

/-- Embeds `recipe_is_allowed` (lines 218-226). -/
def recipe_is_allowed (config : Config) (recipe_key : String) : Except String Bool :=
  match config.allowed_recipes, config.disallowed_recipes with
  | some _, some _ =>
    .error "Illegal configuration. Cannot set both allowed_recipes and disallowed_recipes."
  | some l, none => .ok (l.contains recipe_key)
  | none, some l => .ok (!(l.contains recipe_key))
  | none, none => .ok true

/-- Embeds `crafting_machine_is_allowed` (lines 228-236). -/
def crafting_machine_is_allowed (config : Config) (crafting_machine_key : String) :
    Except String Bool :=
  match config.allowed_crafting_machines, config.disallowed_crafting_machines with
  | some _, some _ =>
    .error "Illegal configuration. Cannot set both allowed_crafting_machines and disallowed_crafting_machines."
  | some l, none => .ok (l.contains crafting_machine_key)
  | none, some l => .ok (!(l.contains crafting_machine_key))
  | none, none => .ok true

/-- The filtering loop of `get_best_crafting_machine` (lines 361-364); an
exception raised by `crafting_machine_is_allowed` aborts the loop. -/
def filterAllowedMachines (config : Config) (recipe_category : String) :
    List MachineData → Except String (List MachineData)
  | [] => .ok []
  | m :: ms => do
    let allowed ← crafting_machine_is_allowed config m.key
    let rest ← filterAllowedMachines config recipe_category ms
    pure (if allowed && m.crafting_categories.contains recipe_category
          then m :: rest else rest)

/-- Lines 366-381 of `get_best_crafting_machine`: the selection among the
already-filtered machines.  Python's `max(...)` over a nonempty list is a
left fold of `max` from the first element, and `best_crafting_machine[0]`
is returned iff the filtered list has length exactly 1. -/
def pickBestMachine : List MachineData → Except String (Option MachineData)
  | [] => .ok none
  | c0 :: rest =>
    match (c0 :: rest).filter (fun c =>
        c.module_slots =
          rest.foldl (fun acc c => max acc c.module_slots) c0.module_slots
        ∧ c.prod_bonus =
          rest.foldl (fun acc c => max acc c.prod_bonus) c0.prod_bonus
        ∧ c.crafting_speed =
          rest.foldl (fun acc c => max acc c.crafting_speed) c0.crafting_speed) with
    | [b] => .ok (some b)
    | _ => .error "Unable to disambiguate best crafting machine"

/-- Embeds `get_best_crafting_machine` (lines 359-381). -/
def get_best_crafting_machine (config : Config) (machines : List MachineData)
    (recipe : RecipeData) : Except String (Option MachineData) :=
  (filterAllowedMachines config recipe.category machines).bind pickBestMachine

/-- The permission predicate of `crafting_machine_is_allowed` in the
well-formed case where at most one of the two machine lists is set. -/
def pureMachineAllowed (config : Config) (key : String) : Bool :=
  match config.allowed_crafting_machines, config.disallowed_crafting_machines with
  | some l, none => l.contains key
  | none, some l => !(l.contains key)
  | _, _ => true

/-- The machines of a permitted list that simultaneously attain the maximum
module slots, prod bonus and crafting speed; this is the order-theoretic
reading of lines 372-378. -/
def dominantMachines (permitted : List MachineData) : List MachineData :=
  permitted.filter fun c => permitted.all fun x =>
    x.module_slots ≤ c.module_slots && x.prod_bonus ≤ c.prod_bonus &&
      x.crafting_speed ≤ c.crafting_speed

lemma machine_allowed_ok (config : Config) (key : String)
    (h : config.allowed_crafting_machines = none ∨
      config.disallowed_crafting_machines = none) :
    crafting_machine_is_allowed config key = .ok (pureMachineAllowed config key) := by
  unfold crafting_machine_is_allowed pureMachineAllowed
  rcases h with h | h
  · rw [h]
    cases config.disallowed_crafting_machines <;> rfl
  · rw [h]
    cases config.allowed_crafting_machines <;> rfl

lemma except_bind_ok {ε α β : Type} (a : α) (f : α → Except ε β) :
    ((Except.ok a : Except ε α) >>= f) = f a := rfl

lemma filterAllowedMachines_ok (config : Config) (cat : String)
    (h : config.allowed_crafting_machines = none ∨
      config.disallowed_crafting_machines = none) :
    ∀ machines : List MachineData,
      filterAllowedMachines config cat machines =
        .ok (machines.filter fun m =>
          pureMachineAllowed config m.key && m.crafting_categories.contains cat)
  | [] => rfl
  | m :: ms => by
    have ih := filterAllowedMachines_ok config cat h ms
    unfold filterAllowedMachines
    rw [machine_allowed_ok config m.key h, except_bind_ok, ih, except_bind_ok,
      List.filter_cons]
    rfl

lemma foldl_max_bounds {α : Type} [LinearOrder α] :
    ∀ (l : List α) (a : α), a ≤ l.foldl max a ∧ ∀ x ∈ l, x ≤ l.foldl max a
  | [], a => ⟨le_refl a, by simp⟩
  | b :: l, a => by
    obtain ⟨h1, h2⟩ := foldl_max_bounds l (max a b)
    refine ⟨le_trans (le_max_left a b) h1, ?_⟩
    intro x hx
    rcases List.mem_cons.mp hx with rfl | hx
    · exact le_trans (le_max_right a x) h1
    · exact h2 x hx

lemma foldl_max_le {α : Type} [LinearOrder α] :
    ∀ (l : List α) (a z : α), a ≤ z → (∀ x ∈ l, x ≤ z) → l.foldl max a ≤ z
  | [], _, _, ha, _ => ha
  | b :: l, a, z, ha, hl => by
    refine foldl_max_le l (max a b) z (max_le ha (hl b (List.mem_cons_self b l))) ?_
    intro x hx
    exact hl x (List.mem_cons_of_mem b hx)

lemma foldl_max_attained {α : Type} [LinearOrder α] (c0 : α) (rest : List α) (c : α)
    (hc : c ∈ c0 :: rest) :
    c = rest.foldl max c0 ↔ ∀ x ∈ c0 :: rest, x ≤ c := by
  constructor
  · rintro rfl x hx
    rcases List.mem_cons.mp hx with rfl | hx
    · exact (foldl_max_bounds rest x).1
    · exact (foldl_max_bounds rest c0).2 x hx
  · intro hall
    have hle : c ≤ rest.foldl max c0 := by
      rcases List.mem_cons.mp hc with rfl | hc
      · exact (foldl_max_bounds rest c).1
      · exact (foldl_max_bounds rest c0).2 c hc
    have hge : rest.foldl max c0 ≤ c :=
      foldl_max_le rest c0 c (hall c0 (List.mem_cons_self c0 rest))
        fun x hx => hall x (List.mem_cons_of_mem c0 hx)
    exact le_antisymm hle hge

lemma best_filter_eq_dominant (c0 : MachineData) (rest : List MachineData) :
    (c0 :: rest).filter (fun c =>
        c.module_slots = rest.foldl (fun acc c => max acc c.module_slots) c0.module_slots
        ∧ c.prod_bonus = rest.foldl (fun acc c => max acc c.prod_bonus) c0.prod_bonus
        ∧ c.crafting_speed =
            rest.foldl (fun acc c => max acc c.crafting_speed) c0.crafting_speed)
      = dominantMachines (c0 :: rest) := by
  unfold dominantMachines
  apply List.filter_congr
  intro c hc
  rw [Bool.eq_iff_iff]
  simp only [decide_eq_true_eq, List.all_eq_true, Bool.and_eq_true]
  have hs := foldl_max_attained c0.module_slots (rest.map MachineData.module_slots)
    c.module_slots (by
      rcases List.mem_cons.mp hc with rfl | hmem
      · exact List.mem_cons_self _ _
      · exact List.mem_cons_of_mem _ (List.mem_map_of_mem _ hmem))
  have hp := foldl_max_attained c0.prod_bonus (rest.map MachineData.prod_bonus)
    c.prod_bonus (by
      rcases List.mem_cons.mp hc with rfl | hmem
      · exact List.mem_cons_self _ _
      · exact List.mem_cons_of_mem _ (List.mem_map_of_mem _ hmem))
  have hv := foldl_max_attained c0.crafting_speed (rest.map MachineData.crafting_speed)
    c.crafting_speed (by
      rcases List.mem_cons.mp hc with rfl | hmem
      · exact List.mem_cons_self _ _
      · exact List.mem_cons_of_mem _ (List.mem_map_of_mem _ hmem))
  rw [List.foldl_map] at hs hp hv
  constructor
  · rintro ⟨h1, h2, h3⟩ x hx
    refine ⟨⟨?_, ?_⟩, ?_⟩
    · rcases List.mem_cons.mp hx with rfl | hmem
      · exact hs.mp h1 x.module_slots (List.mem_cons_self _ _)
      · exact hs.mp h1 x.module_slots
          (List.mem_cons_of_mem _ (List.mem_map_of_mem _ hmem))
    · rcases List.mem_cons.mp hx with rfl | hmem
      · exact hp.mp h2 x.prod_bonus (List.mem_cons_self _ _)
      · exact hp.mp h2 x.prod_bonus
          (List.mem_cons_of_mem _ (List.mem_map_of_mem _ hmem))
    · rcases List.mem_cons.mp hx with rfl | hmem
      · exact hv.mp h3 x.crafting_speed (List.mem_cons_self _ _)
      · exact hv.mp h3 x.crafting_speed
          (List.mem_cons_of_mem _ (List.mem_map_of_mem _ hmem))
  · intro hall
    refine ⟨hs.mpr ?_, hp.mpr ?_, hv.mpr ?_⟩
    · intro y hy
      rcases List.mem_cons.mp hy with rfl | hmem
      · exact ((hall c0 (List.mem_cons_self _ _)).1).1
      · obtain ⟨x, hx, rfl⟩ := List.mem_map.mp hmem
        exact ((hall x (List.mem_cons_of_mem _ hx)).1).1
    · intro y hy
      rcases List.mem_cons.mp hy with rfl | hmem
      · exact ((hall c0 (List.mem_cons_self _ _)).1).2
      · obtain ⟨x, hx, rfl⟩ := List.mem_map.mp hmem
        exact ((hall x (List.mem_cons_of_mem _ hx)).1).2
    · intro y hy
      rcases List.mem_cons.mp hy with rfl | hmem
      · exact (hall c0 (List.mem_cons_self _ _)).2
      · obtain ⟨x, hx, rfl⟩ := List.mem_map.mp hmem
        exact (hall x (List.mem_cons_of_mem _ hx)).2

lemma except_bind_ok2 {ε α β : Type} (a : α) (f : α → Except ε β) :
    (Except.ok a : Except ε α).bind f = f a := rfl

/-- C10: behaviour of `get_best_crafting_machine` when at most one machine
list is set.  If no permitted machine crafts the recipe's category, the
recipe is skipped without error (`none`); otherwise, writing `dominant` for
the permitted machines that simultaneously attain the maximum module slots,
prod bonus and crafting speed, the function raises exactly when `dominant`
is not a singleton (including when it is empty because no machine attains
all three maxima at once), and returns the unique dominant machine
otherwise. -/
theorem get_best_crafting_machine_spec (config : Config)
    (machines : List MachineData) (recipe : RecipeData)
    (hnb : config.allowed_crafting_machines = none ∨
      config.disallowed_crafting_machines = none) :
    (machines.filter (fun m => pureMachineAllowed config m.key &&
        m.crafting_categories.contains recipe.category) = [] →
      get_best_crafting_machine config machines recipe = .ok none)
    ∧ (machines.filter (fun m => pureMachineAllowed config m.key &&
        m.crafting_categories.contains recipe.category) ≠ [] →
      (dominantMachines (machines.filter (fun m => pureMachineAllowed config m.key &&
        m.crafting_categories.contains recipe.category))).length ≠ 1 →
      get_best_crafting_machine config machines recipe =
        .error "Unable to disambiguate best crafting machine")
    ∧ (∀ b, dominantMachines (machines.filter (fun m => pureMachineAllowed config m.key &&
        m.crafting_categories.contains recipe.category)) = [b] →
      get_best_crafting_machine config machines recipe = .ok (some b)) := by
  have hfil := filterAllowedMachines_ok config recipe.category hnb machines
  unfold get_best_crafting_machine
  rw [hfil, except_bind_ok2]
  cases hp : machines.filter (fun m => pureMachineAllowed config m.key &&
      m.crafting_categories.contains recipe.category) with
  | nil =>
    refine ⟨fun _ => rfl, fun h _ => absurd rfl h, ?_⟩
    intro b hb
    simp [dominantMachines] at hb
  | cons c0 rest =>
    refine ⟨fun h => absurd h (List.cons_ne_nil c0 rest), ?_, ?_⟩
    · intro _ hlen
      simp only [pickBestMachine]
      rw [best_filter_eq_dominant c0 rest]
      rcases hd : dominantMachines (c0 :: rest) with _ | ⟨b, _ | ⟨b2, tail⟩⟩
      · rfl
      · exact absurd (by simp [hd]) hlen
      · rfl
    · intro b hb
      simp only [pickBestMachine]
      rw [best_filter_eq_dominant c0 rest, hb]

/-- Catalog for the C10 witness: two machines of the recipe's category, the
first dominating the second in all three attributes. -/
def configC10 : Config :=
  { quality_module_tier := 1, quality_module_quality := 0,
    prod_module_tier := 1, prod_module_quality := 0,
    check_speed_modules := false, speed_module_tier := 1, speed_module_quality := 0,
    building_quality := "normal", max_quality_unlocked := 4,
    allow_byproducts := false, module_cost := 1, building_cost := 1,
    allowed_recipes := none, disallowed_recipes := none,
    allowed_crafting_machines := none, disallowed_crafting_machines := none,
    inputs := [], outputs := [] }

def machineC10a : MachineData := ⟨"assembler-2", 2, 2, ["crafting"], 0⟩

def machineC10b : MachineData := ⟨"assembler-1", 1, 1, ["crafting"], 0⟩

def recipeC10 : RecipeData := ⟨"gears", "crafting", true, [], [], 1⟩

/-- Witness for C10: the unique dominant machine is returned. -/
theorem get_best_crafting_machine_spec_witness :
    get_best_crafting_machine configC10 [machineC10a, machineC10b] recipeC10 =
      .ok (some machineC10a) :=
  (get_best_crafting_machine_spec configC10 [machineC10a, machineC10b] recipeC10
    (Or.inl rfl)).2.2 machineC10a (by decide)

/-! ## The solver driver up to the Solve call (lines 383-456) -/

/-- `DEFAULT_RESOURCE_CATEGORY` (line 12). -/
def DEFAULT_RESOURCE_CATEGORY : String := "basic-solid"

/-- A resource record from the data file (consumed by `setup_resource`,
lines 238-263). -/
structure ResourceData where
  key : String
  mining_time : ℚ
  results : List ResultData
  category : Option String
  required_fluid : Option String
  fluid_amount : Option ℚ
deriving DecidableEq

/-- A mining drill record from the data file (consumed by
`setup_mining_drill`, lines 265-278). -/
structure MiningDrillData where
  key : String
  module_slots : ℕ
  mining_speed : ℚ
  resource_categories : List String
deriving DecidableEq

/-- Line 112-113. -/
def get_resource_item_key (item_key : String) : String := item_key ++ "-resource"

/-- Line 115-116. -/
def get_resource_recipe_key (item_key : String) : String := item_key ++ "-mining"

/-- The mock item built by `setup_resource` (lines 245-249); it never
allows quality. -/
def mockResourceItem (resource : ResourceData) : ItemData :=
  ⟨get_resource_item_key resource.key, false⟩

/-- The mock recipe built by `setup_resource` (lines 250-263). -/
def mockResourceRecipe (resource : ResourceData) : RecipeData where
  key := get_resource_recipe_key resource.key
  category := resource.category.getD DEFAULT_RESOURCE_CATEGORY
  allow_productivity := false
  ingredients :=
    ⟨get_resource_item_key resource.key, 1⟩ ::
      (match resource.required_fluid with
       | some fluid => [⟨fluid, resource.fluid_amount.getD 0⟩]
       | none => [])
  results := resource.results
  energy_required := resource.mining_time

/-- The mock crafting machine built by `setup_mining_drill`
(lines 265-278). -/
def mockDrillMachine (drill : MiningDrillData) : MachineData where
  key := drill.key
  crafting_speed := drill.mining_speed
  module_slots := drill.module_slots
  crafting_categories := drill.resource_categories
  prod_bonus := 0

/-- The static content catalog loaded from the JSON data file
(lines 169-176). -/
structure Catalog where
  resources : List ResourceData
  mining_drills : List MiningDrillData
  items : List RawItem
  crafting_machines : List MachineData
  recipes : List RecipeData
deriving DecidableEq

/-- Lines 178-181: items tagged during `__init__`. -/
def initItems (cat : Catalog) : List ItemData := cat.items.map initItem

/-- Dictionary lookup in `self.items`. -/
def lookupItem (items : List ItemData) (name : String) : Option ItemData :=
  items.find? fun item => item.key == name

/-- Lines 183-199: recipes with an ingredient missing from the item list
are dropped during `__init__`. -/
def initRecipes (items : List ItemData) (recipes : List RecipeData) : List RecipeData :=
  recipes.filter fun recipe =>
    recipe.ingredients.all fun ingredient => (lookupItem items ingredient.name).isSome

/-- The item list after `setup_resource` has run (lines 387-388). -/
def runItems (cat : Catalog) : List ItemData :=
  initItems cat ++ cat.resources.map mockResourceItem

/-- The recipe dictionary contents when the loop of line 397 runs: the
surviving catalog recipes followed by the mock mining recipes. -/
def runRecipes (cat : Catalog) : List RecipeData :=
  initRecipes (initItems cat) cat.recipes ++ cat.resources.map mockResourceRecipe

/-- The machine dictionary contents after `setup_mining_drill`
(lines 390-391). -/
def runMachines (cat : Catalog) : List MachineData :=
  cat.crafting_machines ++ cat.mining_drills.map mockDrillMachine

/-- The keys of `self.solver_items` created by `setup_item`
(lines 280-284, 394-395). -/
def solverItemIds (config : Config) (cat : Catalog) : List (String × ℕ) :=
  (runItems cat).flatMap fun item =>
    (itemQualities config.max_quality_unlocked item).map fun quality => (item.key, quality)

/-- The recipe loop of lines 397-402; the LP-column bookkeeping of
`setup_recipe_var` raises nothing under the modelled total item lookup and
contributes no control flow, so only the permission check and machine
selection remain. -/
def runRecipeLoop (config : Config) (cat : Catalog) : Except String Unit :=
  (runRecipes cat).forM fun recipe =>
    (recipe_is_allowed config recipe.key).bind fun allowed =>
      if allowed then
        (get_best_crafting_machine config (runMachines cat) recipe).bind fun _ => pure ()
      else pure ()

/-- The input loop of lines 405-420: `self.solver_items[item_id]` raises a
`KeyError` when the configured input is not a known item node. -/
def runInputLoop (config : Config) (cat : Catalog) : Except String Unit :=
  config.inputs.forM fun input =>
    if (solverItemIds config cat).contains
        (if input.resource then get_resource_item_key input.key else input.key,
         input.quality) then pure ()
    else .error ("KeyError: " ++
      (if input.resource then get_resource_item_key input.key else input.key))

/-- The output loop of lines 423-431. -/
def runOutputLoop (config : Config) (cat : Catalog) : Except String Unit :=
  config.outputs.forM fun output =>
    if (solverItemIds config cat).contains (output.key, output.quality) then pure ()
    else .error ("KeyError: " ++ output.key)

/-- Embeds `LinearSolver.run` (lines 383-456) up to the `Solve()` call of
line 456; `.ok ()` means the run reaches `Solve()` without raising. -/
def runToSolve (config : Config) (cat : Catalog) : Except String Unit :=
  (runRecipeLoop config cat).bind fun _ =>
    (runInputLoop config cat).bind fun _ =>
      runOutputLoop config cat

/-- The permission predicate of `recipe_is_allowed` in the well-formed case
where at most one of the two recipe lists is set. -/
def pureRecipeAllowed (config : Config) (key : String) : Bool :=
  match config.allowed_recipes, config.disallowed_recipes with
  | some l, none => l.contains key
  | none, some l => !(l.contains key)
  | _, _ => true

lemma recipe_allowed_ok (config : Config) (key : String)
    (h : config.allowed_recipes = none ∨ config.disallowed_recipes = none) :
    recipe_is_allowed config key = .ok (pureRecipeAllowed config key) := by
  unfold recipe_is_allowed pureRecipeAllowed
  rcases h with h | h
  · rw [h]
    cases config.disallowed_recipes <;> rfl
  · rw [h]
    cases config.allowed_recipes <;> rfl

lemma recipe_allowed_error_of_both (config : Config) (key : String)
    (ha : config.allowed_recipes ≠ none) (hd : config.disallowed_recipes ≠ none) :
    recipe_is_allowed config key =
      .error "Illegal configuration. Cannot set both allowed_recipes and disallowed_recipes." := by
  unfold recipe_is_allowed
  cases hA : config.allowed_recipes with
  | none => exact absurd hA ha
  | some l1 =>
    cases hD : config.disallowed_recipes with
    | none => exact absurd hD hd
    | some l2 => rfl

lemma machine_allowed_error_of_both (config : Config) (key : String)
    (ha : config.allowed_crafting_machines ≠ none)
    (hd : config.disallowed_crafting_machines ≠ none) :
    crafting_machine_is_allowed config key =
      .error "Illegal configuration. Cannot set both allowed_crafting_machines and disallowed_crafting_machines." := by
  unfold crafting_machine_is_allowed
  cases hA : config.allowed_crafting_machines with
  | none => exact absurd hA ha
  | some l1 =>
    cases hD : config.disallowed_crafting_machines with
    | none => exact absurd hD hd
    | some l2 => rfl

lemma get_best_error_of_both (config : Config) (machines : List MachineData)
    (recipe : RecipeData)
    (ha : config.allowed_crafting_machines ≠ none)
    (hd : config.disallowed_crafting_machines ≠ none)
    (hm : machines ≠ []) :
    ∃ msg, get_best_crafting_machine config machines recipe = .error msg := by
  cases machines with
  | nil => exact absurd rfl hm
  | cons m ms =>
    refine ⟨"Illegal configuration. Cannot set both allowed_crafting_machines and disallowed_crafting_machines.", ?_⟩
    unfold get_best_crafting_machine filterAllowedMachines
    rw [machine_allowed_error_of_both config m.key ha hd]
    rfl

lemma list_forM_error {α : Type} (f : α → Except String Unit) :
    ∀ l : List α, (∃ a ∈ l, ∃ e, f a = .error e) → ∃ e, l.forM f = .error e
  | [], h => by simp at h
  | b :: l, h => by
    cases hfb : f b with
    | error e => exact ⟨e, by rw [List.forM_cons', hfb]; rfl⟩
    | ok u =>
      obtain ⟨a, ha, e, he⟩ := h
      rcases List.mem_cons.mp ha with rfl | ha
      · rw [hfb] at he
        cases he
      · obtain ⟨e2, h2⟩ := list_forM_error f l ⟨a, ha, e, he⟩
        refine ⟨e2, ?_⟩
        rw [List.forM_cons', hfb]
        cases u
        exact h2

/-- C7 amended: a configuration setting both `allowed_recipes` and
`disallowed_recipes` raises before `Solve()` PROVIDED the recipe loop runs
at least once (the recipe dictionary is nonempty); a configuration setting
both machine lists raises before `Solve()` PROVIDED some recipe is
permitted and the machine dictionary is nonempty.  (With an empty catalog
the checks are never executed and `Solve()` is reached - see the
counterexample.) -/
theorem dual_lists_raise_before_solve (config : Config) (cat : Catalog) :
    ((config.allowed_recipes ≠ none ∧ config.disallowed_recipes ≠ none) →
      runRecipes cat ≠ [] →
      ∃ msg, runToSolve config cat = .error msg)
    ∧ ((config.allowed_crafting_machines ≠ none ∧
          config.disallowed_crafting_machines ≠ none) →
      (config.allowed_recipes = none ∨ config.disallowed_recipes = none) →
      (∃ recipe ∈ runRecipes cat, pureRecipeAllowed config recipe.key = true) →
      runMachines cat ≠ [] →
      ∃ msg, runToSolve config cat = .error msg) := by
  constructor
  · rintro ⟨ha, hd⟩ hne
    obtain ⟨e, he⟩ : ∃ e, runRecipeLoop config cat = .error e := by
      unfold runRecipeLoop
      apply list_forM_error
      obtain ⟨r, rest, hr⟩ := List.exists_cons_of_ne_nil hne
      refine ⟨r, by rw [hr]; exact List.mem_cons_self r rest, ?_⟩
      refine ⟨"Illegal configuration. Cannot set both allowed_recipes and disallowed_recipes.", ?_⟩
      rw [recipe_allowed_error_of_both config r.key ha hd]
      rfl
    refine ⟨e, ?_⟩
    unfold runToSolve
    rw [he]
    rfl
  · rintro ⟨ha, hd⟩ hrOk ⟨recipe, hmem, hallowed⟩ hm
    obtain ⟨e, he⟩ : ∃ e, runRecipeLoop config cat = .error e := by
      unfold runRecipeLoop
      apply list_forM_error
      refine ⟨recipe, hmem, ?_⟩
      rw [recipe_allowed_ok config recipe.key hrOk, except_bind_ok2, if_pos hallowed]
      obtain ⟨msg, hbest⟩ := get_best_error_of_both config (runMachines cat) recipe ha hd hm
      refine ⟨msg, ?_⟩
      rw [hbest]
      rfl
    refine ⟨e, ?_⟩
    unfold runToSolve
    rw [he]
    rfl

/-- Configuration for the C7 counterexample: both recipe lists set. -/
def configC7 : Config :=
  { quality_module_tier := 1, quality_module_quality := 0,
    prod_module_tier := 1, prod_module_quality := 0,
    check_speed_modules := false, speed_module_tier := 1, speed_module_quality := 0,
    building_quality := "normal", max_quality_unlocked := 4,
    allow_byproducts := false, module_cost := 1, building_cost := 1,
    allowed_recipes := some ["iron-gear-wheel"],
    disallowed_recipes := some ["copper-cable"],
    allowed_crafting_machines := none, disallowed_crafting_machines := none,
    inputs := [], outputs := [] }

def emptyCatalog : Catalog := ⟨[], [], [], [], []⟩

/-- C7 counterexample: with BOTH `allowed_recipes` and `disallowed_recipes`
set but an empty catalog (no recipes, no resources), the run never calls
`recipe_is_allowed`, raises nothing, and reaches `Solve()` - the claim's
"regardless of the catalog contents" is false. -/
theorem dual_lists_empty_catalog_counterexample :
    configC7.allowed_recipes ≠ none ∧ configC7.disallowed_recipes ≠ none ∧
      runToSolve configC7 emptyCatalog = .ok () :=
  ⟨by simp [configC7], by simp [configC7], rfl⟩

/-- Catalog for the C7 witness: a single one-ingredient recipe. -/
def catalogC7w : Catalog :=
  ⟨[], [], [⟨"iron", "item"⟩], [],
    [⟨"gears", "crafting", false, [⟨"iron", 1⟩], [], 1⟩]⟩

/-- Witness for the amended C7: with one recipe present and both recipe
lists set, the run raises before `Solve()`. -/
theorem dual_lists_raise_before_solve_witness :
    ∃ msg, runToSolve configC7 catalogC7w = .error msg :=
  (dual_lists_raise_before_solve configC7 catalogC7w).1
    ⟨by simp [configC7], by simp [configC7]⟩ (by decide)

/-! ## Solver status handling and reporting (lines 453-495) -/

/-- The backend statuses the spec distinguishes (section 4.6); the code
only ever tests `status == pywraplp.Solver.OPTIMAL` (line 458). -/
inductive LpResultStatus
  | optimal
  | infeasible
  | unbounded
  | numericalFailure
deriving DecidableEq

/-- What the driver reports after `Solve()` (lines 458-495): the variables
printed in each section, and the diagnostic line printed in the `else`
branch of line 494. -/
structure SolveReport where
  inputs_reported : List (String × ℚ)
  byproducts_reported : List (String × ℚ)
  recipes_reported : List (String × ℚ)
  diagnostic : Option String
deriving DecidableEq

/-- The threshold `1e-9` of lines 464, 470 and 479. -/
def SOLVER_EPSILON : ℚ := 1 / 1000000000

/-- Embeds the reporting logic of `LinearSolver.run` after the `Solve()`
call (lines 458-495): on `OPTIMAL` each variable section lists exactly the
variables whose solution value exceeds `1e-9`; on any other status the
fixed line `The problem does not have an optimal solution.` is printed and
nothing else happens (no repair, no retry). -/
def report_solution (status : LpResultStatus) (allow_byproducts : Bool)
    (input_vars byproduct_vars recipe_vars : List (String × ℚ)) : SolveReport :=
  if status = .optimal then
    { inputs_reported := input_vars.filter fun p => SOLVER_EPSILON < p.2
      byproducts_reported :=
        if allow_byproducts then byproduct_vars.filter fun p => SOLVER_EPSILON < p.2
        else []
      recipes_reported := recipe_vars.filter fun p => SOLVER_EPSILON < p.2
      diagnostic := none }
  else
    { inputs_reported := []
      byproducts_reported := []
      recipes_reported := []
      diagnostic := some "The problem does not have an optimal solution." }

/-- C8 counterexample: the non-optimal diagnostic does NOT name the status:
`Infeasible` and `Unbounded` produce byte-for-byte identical reports, and
the fixed message mentions no status at all. -/
theorem nonoptimal_diagnostic_counterexample :
    report_solution .infeasible false [] [] [] = report_solution .unbounded false [] [] []
    ∧ (report_solution .infeasible false [] [] []).diagnostic =
        some "The problem does not have an optimal solution." := by
  constructor
  · rfl
  · rfl

/-- C8 amended: on `Optimal` the driver reports exactly the activity
variables whose solution value exceeds `1e-9`; on any non-optimal status it
emits the fixed diagnostic `The problem does not have an optimal solution.`
(which does not identify which non-optimal status occurred) and reports no
variables - it does not attempt repair. -/
theorem report_solution_spec (status : LpResultStatus) (allow_byproducts : Bool)
    (input_vars byproduct_vars recipe_vars : List (String × ℚ)) :
    (status = .optimal →
      (∀ p : String × ℚ, p ∈ (report_solution status allow_byproducts input_vars
          byproduct_vars recipe_vars).recipes_reported ↔
        (p ∈ recipe_vars ∧ SOLVER_EPSILON < p.2))
      ∧ (report_solution status allow_byproducts input_vars byproduct_vars
          recipe_vars).diagnostic = none)
    ∧ (status ≠ .optimal →
      (report_solution status allow_byproducts input_vars byproduct_vars
          recipe_vars).diagnostic =
        some "The problem does not have an optimal solution."
      ∧ (report_solution status allow_byproducts input_vars byproduct_vars
          recipe_vars).recipes_reported = []) := by
  constructor
  · intro h
    subst h
    refine ⟨?_, ?_⟩
    · intro p
      simp [report_solution, List.mem_filter]
    · simp [report_solution]
  · intro h
    unfold report_solution
    rw [if_neg h]
    exact ⟨rfl, rfl⟩

/-- Witness for the amended C8 at concrete values: `("a", 1)` is above the
threshold and is reported on `Optimal`; `Infeasible` yields the fixed
diagnostic. -/
theorem report_solution_spec_witness :
    (("a", (1 : ℚ)) ∈ (report_solution .optimal false [] []
        [("a", 1), ("b", 0)]).recipes_reported)
    ∧ (report_solution .infeasible false [] [] [("a", 1), ("b", 0)]).diagnostic =
        some "The problem does not have an optimal solution." :=
  ⟨((report_solution_spec .optimal false [] [] [("a", 1), ("b", 0)]).1 rfl).1
      ("a", 1) |>.mpr ⟨by simp, by norm_num [SOLVER_EPSILON]⟩,
   ((report_solution_spec .infeasible false [] [] [("a", 1), ("b", 0)]).2
      (by simp)).1⟩

end FQO
